import Mathlib

/-!
Verification of the clinker supply-chain optimization backend
(`backend/optimization`, `backend/uncertainty`, `backend/analytics`).

The Python modules are shallowly embedded: Pyomo index sets become `List`s,
parameter dictionaries and solved variable values become functions into `ℚ`,
objective expressions become `ℚ`-valued functions, constraint expressions
become `Prop`s, and fallible loaders become `Except String` computations.
Definitions follow the corresponding source functions; definitions whose doc
comment says "following the spec's words" restate a sentence of the
natural-language specification so it can be compared with the source.
-/

namespace ClinkerOpt

/-- Sum of `f` over a Python iteration `for x in l`. -/
def sumOver {α : Type} (l : List α) (f : α → ℚ) : ℚ :=
  (l.map f).sum

theorem sumOver_nil {α : Type} (f : α → ℚ) : sumOver ([] : List α) f = 0 := rfl

theorem sumOver_cons {α : Type} (a : α) (l : List α) (f : α → ℚ) :
    sumOver (a :: l) f = f a + sumOver l f := rfl

theorem sumOver_add {α : Type} (l : List α) (f g : α → ℚ) :
    sumOver l (fun x => f x + g x) = sumOver l f + sumOver l g := by
  induction l with
  | nil => simp [sumOver]
  | cons a l ih =>
      simp only [sumOver_cons, ih]
      ring

theorem sumOver_mul_left {α : Type} (l : List α) (c : ℚ) (f : α → ℚ) :
    sumOver l (fun x => c * f x) = c * sumOver l f := by
  induction l with
  | nil => simp [sumOver]
  | cons a l ih =>
      simp only [sumOver_cons, ih]
      ring

theorem sumOver_congr {α : Type} (l : List α) (f g : α → ℚ)
    (h : ∀ x ∈ l, f x = g x) : sumOver l f = sumOver l g := by
  induction l with
  | nil => rfl
  | cons a l ih =>
      simp only [sumOver_cons]
      rw [h a (List.mem_cons_self a l), ih (fun x hx => h x (List.mem_cons_of_mem a hx))]

/-! ## Deterministic model data (model.py, data_loader.py)

A route key is `(from_id, to_id, mode)` as in `data_loader.py`. The
parameters below are the fields of the built model that the objective and
the result parser read. -/

/-- Index sets and cost parameters of the deterministic model
(`build_model` in model.py): plants `P`, months `T`, route keys `R`,
and the `ProdCost`, `HoldCost`, `RouteCost` parameter dictionaries. -/
structure DetModelData where
  P : List String
  T : List String
  R : List (String × String × String)
  ProdCost : String → ℚ
  HoldCost : String → ℚ
  RouteCost : String × String × String → ℚ

/-- A (solved) assignment to the decision-variable families of the
deterministic / feasibility-repair model: `Prod`, `Ship`, `Trips`, `Inv`
and, for the repair variant, `DemandSlack` (feasible_constraints.py). -/
structure DetAssign where
  Prod : String → String → ℚ
  Ship : String × String × String → String → ℚ
  Trips : String × String × String → String → ℚ
  Inv : String → String → ℚ
  DemandSlack : String → String → ℚ

/-- Objective expression installed by `add_objective` (objective.py,
`total_cost_rule`): production cost + transport cost (trips × cost per
trip) + holding cost. -/
def totalCostRule (d : DetModelData) (v : DetAssign) : ℚ :=
  sumOver d.P (fun p => sumOver d.T (fun t => v.Prod p t * d.ProdCost p))
    + sumOver d.R (fun r => sumOver d.T (fun t => v.Trips r t * d.RouteCost r))
    + sumOver d.P (fun p => sumOver d.T (fun t => v.Inv p t * d.HoldCost p))

/-- The `DemandPenalty` parameter added by `add_feasible_constraints`
(feasible_constraints.py line 22): `pyo.Param(initialize=10000.0)`. -/
def demandPenaltyParam : ℚ := 10000

/-- Objective expression installed by `add_feasible_objective`
(feasible_objective.py): production cost (`ProdCost × Prod`), transport
cost (`RouteCost × Ship`), holding cost (`HoldCost × Inv`), and the demand
penalty (`DemandPenalty × DemandSlack`). -/
def feasibleTotalCost (d : DetModelData) (v : DetAssign) : ℚ :=
  sumOver d.P (fun p => sumOver d.T (fun t => d.ProdCost p * v.Prod p t))
    + sumOver d.R (fun r => sumOver d.T (fun t => d.RouteCost r * v.Ship r t))
    + sumOver d.P (fun p => sumOver d.T (fun t => d.HoldCost p * v.Inv p t))
    + sumOver d.P (fun p => sumOver d.T (fun t => demandPenaltyParam * v.DemandSlack p t))

/-- Total demand slack over plants and periods. -/
def totalDemandSlack (d : DetModelData) (v : DetAssign) : ℚ :=
  sumOver d.P (fun p => sumOver d.T (fun t => v.DemandSlack p t))

/-- Objective of the feasibility-repair variant following the spec's words:
the deterministic objective plus a large per-unit penalty times the sum of
all `DemandSlack` variables. -/
def claimedFeasibleObjective (d : DetModelData) (v : DetAssign) : ℚ :=
  totalCostRule d v + demandPenaltyParam * totalDemandSlack d v

/-- Concrete deterministic model data for counterexamples: two plants, one
month, one route with cost-per-trip 1, all other costs 0. -/
def detData0 : DetModelData :=
  { P := ["p1", "p2"]
    T := ["m1"]
    R := [("p1", "p2", "road")]
    ProdCost := fun _ => 0
    HoldCost := fun _ => 0
    RouteCost := fun _ => 1 }

/-- Concrete assignment: ships 5 units on the route with 0 trips,
everything else 0. -/
def detAssign0 : DetAssign :=
  { Prod := fun _ _ => 0
    Ship := fun _ _ => 5
    Trips := fun _ _ => 0
    Inv := fun _ _ => 0
    DemandSlack := fun _ _ => 0 }

end ClinkerOpt

namespace ClinkerOpt

/-- Claim C1, counterexample: the feasibility-repair objective is not the
deterministic objective plus the slack penalty. With 5 units shipped and 0
trips on a route of cost 1 (and all slack 0) the repair objective is 5
while the deterministic objective plus penalty is 0: the repair variant
costs transport by shipped quantity (`Ship`), not by trips. -/
theorem feasibleObjective_ne_claimed :
    feasibleTotalCost detData0 detAssign0 = 5
      ∧ claimedFeasibleObjective detData0 detAssign0 = 0
      ∧ feasibleTotalCost detData0 detAssign0 ≠ claimedFeasibleObjective detData0 detAssign0 := by
  refine ⟨?_, ?_, ?_⟩ <;>
    norm_num [feasibleTotalCost, claimedFeasibleObjective, totalCostRule, totalDemandSlack,
      sumOver, detData0, detAssign0, demandPenaltyParam]

/-- Claim C1 (amended): the feasibility-repair objective equals the
deterministic objective plus the per-unit penalty (10000) times the total
demand slack, plus, for every route and period, the cost-per-trip times
(shipped quantity − trips): its transport term prices shipped quantity
rather than trips. -/
theorem feasibleObjective_eq_det_plus_penalty_plus_shipGap
    (d : DetModelData) (v : DetAssign) :
    feasibleTotalCost d v
      = totalCostRule d v + demandPenaltyParam * totalDemandSlack d v
        + sumOver d.R (fun r => sumOver d.T (fun t =>
            d.RouteCost r * (v.Ship r t - v.Trips r t))) := by
  unfold feasibleTotalCost totalCostRule totalDemandSlack
  have hprod :
      sumOver d.P (fun p => sumOver d.T (fun t => d.ProdCost p * v.Prod p t))
        = sumOver d.P (fun p => sumOver d.T (fun t => v.Prod p t * d.ProdCost p)) := by
    refine sumOver_congr _ _ _ (fun p _ => ?_)
    refine sumOver_congr _ _ _ (fun t _ => ?_)
    ring
  have hhold :
      sumOver d.P (fun p => sumOver d.T (fun t => d.HoldCost p * v.Inv p t))
        = sumOver d.P (fun p => sumOver d.T (fun t => v.Inv p t * d.HoldCost p)) := by
    refine sumOver_congr _ _ _ (fun p _ => ?_)
    refine sumOver_congr _ _ _ (fun t _ => ?_)
    ring
  have hpen :
      sumOver d.P (fun p => sumOver d.T (fun t => demandPenaltyParam * v.DemandSlack p t))
        = demandPenaltyParam * sumOver d.P (fun p => sumOver d.T (fun t => v.DemandSlack p t)) := by
    rw [← sumOver_mul_left]
    refine sumOver_congr _ _ _ (fun p _ => ?_)
    rw [sumOver_mul_left]
  have hship :
      sumOver d.R (fun r => sumOver d.T (fun t => d.RouteCost r * v.Ship r t))
        = sumOver d.R (fun r => sumOver d.T (fun t => v.Trips r t * d.RouteCost r))
          + sumOver d.R (fun r => sumOver d.T (fun t =>
              d.RouteCost r * (v.Ship r t - v.Trips r t))) := by
    rw [← sumOver_add]
    refine sumOver_congr _ _ _ (fun r _ => ?_)
    rw [← sumOver_add]
    refine sumOver_congr _ _ _ (fun t _ => ?_)
    ring
  rw [hprod, hhold, hpen, hship]
  ring

/-! ## Result parser cost breakdown (result_parser.py lines 96-117) -/

/-- Cost breakdown recomputed by `parse_results` from solved variable
values (result_parser.py lines 97-103): production = `Prod × ProdCost`,
transport = `Trips × RouteCost`, holding = `Inv × HoldCost`. The
dictionary has exactly these three components (no penalty entry). -/
def parseResultsCostBreakdown (d : DetModelData) (v : DetAssign) : ℚ × ℚ × ℚ :=
  ( sumOver d.P (fun p => sumOver d.T (fun t => v.Prod p t * d.ProdCost p))
  , sumOver d.R (fun r => sumOver d.T (fun t => v.Trips r t * d.RouteCost r))
  , sumOver d.P (fun p => sumOver d.T (fun t => v.Inv p t * d.HoldCost p)) )

/-- Objective value reported by `parse_results` (result_parser.py line
105): the value of the model's `TotalCost` objective expression, which for
the deterministic model is the expression installed by `add_objective`. -/
def parseResultsObjectiveValue (d : DetModelData) (v : DetAssign) : ℚ :=
  totalCostRule d v

/-- Claim C5: for every parsed deterministic run, the recomputed cost
breakdown satisfies production + transport + holding = objective value
exactly (hence approximately): each component is recomputed from the
solved variable values and their sum reproduces the objective expression.
The breakdown of `parse_results` never carries a penalty component. -/
theorem parseResults_breakdown_reproduces_objective
    (d : DetModelData) (v : DetAssign) :
    (parseResultsCostBreakdown d v).1 + (parseResultsCostBreakdown d v).2.1
        + (parseResultsCostBreakdown d v).2.2
      = parseResultsObjectiveValue d v := by
  rfl

end ClinkerOpt

namespace ClinkerOpt

/-! ## Constraint families (constraints.py and feasible_constraints.py)

Each Pyomo constraint expression becomes a `Prop` over the quantities the
rule compares. -/

/-- Original safety-stock constraint (constraints.py `safety_stock_rule`):
`Inv[p,t] >= Safety[p]`. -/
def safetyStockConstraint (inv safety : ℚ) : Prop := safety ≤ inv

/-- Original max-inventory constraint (constraints.py
`max_inventory_rule`): `Inv[p,t] <= MaxInv[p]`. -/
def maxInventoryConstraint (inv maxInv : ℚ) : Prop := inv ≤ maxInv

/-- Original SBQ constraint (constraints.py `sbq_rule`):
`Ship >= Trips * RouteSBQ`. -/
def sbqConstraint (ship trips sbq : ℚ) : Prop := trips * sbq ≤ ship

/-- Original aggregate transport-code lower limit (constraints.py
`transport_code_limit_lower_rule`): `total_shipped >= lower`. -/
def transportCodeLimitLower (totalShipped lower : ℚ) : Prop := lower ≤ totalShipped

/-- Original aggregate transport-code upper limit (constraints.py
`transport_code_limit_upper_rule`): `total_shipped <= upper`. -/
def transportCodeLimitUpper (totalShipped upper : ℚ) : Prop := totalShipped ≤ upper

/-- Relaxed safety-stock constraint (feasible_constraints.py
`safety_stock_rule`): `Inv >= Safety * 0.8`. -/
def safetyStockRelaxed (inv safety : ℚ) : Prop := safety * (8 / 10) ≤ inv

/-- Relaxed max-inventory constraint (feasible_constraints.py
`max_inventory_rule`): `Inv <= MaxInv * 1.2`. -/
def maxInventoryRelaxed (inv maxInv : ℚ) : Prop := inv ≤ maxInv * (12 / 10)

/-- Relaxed SBQ constraint (feasible_constraints.py `sbq_rule`): when
`RouteSBQ > 0`, `Ship >= Trips * RouteSBQ * 0.5`; otherwise the constraint
is skipped. -/
def sbqRelaxed (ship trips sbq : ℚ) : Prop :=
  0 < sbq → trips * sbq * (1 / 2) ≤ ship

/-- Relaxed aggregate transport-code lower limit (feasible_constraints.py
`transport_code_limit_lower_rule`): `total_shipped >= lower * 0.8`. -/
def transportCodeLimitLowerRelaxed (totalShipped lower : ℚ) : Prop :=
  lower * (8 / 10) ≤ totalShipped

/-- Relaxed aggregate transport-code upper limit (feasible_constraints.py
`transport_code_limit_upper_rule`): `total_shipped <= upper * 1.2`. -/
def transportCodeLimitUpperRelaxed (totalShipped upper : ℚ) : Prop :=
  totalShipped ≤ upper * (12 / 10)

/-- SBQ relaxation following the spec's words: the minimum-batch lower
bound loosened by the same ±20% band, i.e. the lower bound scaled by 0.8. -/
def claimedSbqRelaxed (ship trips sbq : ℚ) : Prop :=
  0 < sbq → trips * sbq * (8 / 10) ≤ ship

/-- Claim C2, counterexample: the code's relaxed SBQ constraint is not the
claimed 0.8-scaled one. With SBQ 10, 1 trip and 6 units shipped, the code
accepts (6 ≥ 10 × 0.5 = 5) while a 20% band would reject (6 < 10 × 0.8 = 8):
the SBQ bound is relaxed by 50%, not 20%. -/
theorem sbqRelaxed_ne_claimed :
    sbqRelaxed 6 1 10 ∧ ¬ claimedSbqRelaxed 6 1 10 := by
  constructor
  · intro _
    norm_num
  · intro h
    have := h (by norm_num)
    norm_num at this

/-- Claim C2 (amended): the safety-stock lower bound is scaled by 0.8, the
max-inventory upper bound by 1.2, and the aggregate transport limits by
0.8 (lower) and 1.2 (upper); the SBQ lower bound, however, is scaled by
0.5 (a 50% reduction), not by 0.8. Stated against the original constraint
families of constraints.py with their bounds rescaled. -/
theorem relaxedConstraints_scale_bounds
    (inv safety maxInv ship trips sbq total lo hi : ℚ) :
    (safetyStockRelaxed inv safety ↔ safetyStockConstraint inv (safety * (8 / 10)))
      ∧ (maxInventoryRelaxed inv maxInv ↔ maxInventoryConstraint inv (maxInv * (12 / 10)))
      ∧ (0 < sbq → (sbqRelaxed ship trips sbq ↔ sbqConstraint ship trips (sbq * (1 / 2))))
      ∧ (transportCodeLimitLowerRelaxed total lo ↔ transportCodeLimitLower total (lo * (8 / 10)))
      ∧ (transportCodeLimitUpperRelaxed total hi ↔ transportCodeLimitUpper total (hi * (12 / 10))) := by
  refine ⟨Iff.rfl, Iff.rfl, ?_, Iff.rfl, Iff.rfl⟩
  intro hsbq
  unfold sbqRelaxed sbqConstraint
  rw [mul_assoc]
  constructor
  · intro h
    exact h hsbq
  · intro h _
    exact h

/-- Witness for the amended C2 theorem at concrete values: with SBQ 10,
1 trip and 6 units shipped the relaxed SBQ constraint coincides with the
original constraint taken at the halved batch size 5. -/
theorem relaxedConstraints_scale_bounds_witness :
    (sbqRelaxed 6 1 10 ↔ sbqConstraint 6 1 (10 * (1 / 2))) ∧ sbqRelaxed 6 1 10 := by
  constructor
  · exact (relaxedConstraints_scale_bounds 0 0 0 6 1 10 0 0 0).2.2.1 (by norm_num)
  · intro _
    norm_num

end ClinkerOpt

namespace ClinkerOpt

/-! ## Stochastic model (uncertainty/stochastic_model.py) -/

/-- How a decision-variable family of the stochastic model is indexed
(`build_stochastic_model`, lines 61-68): by `(plant, period)`, by
`(route, period)`, or by `(scenario, plant, period)`. -/
inductive StochIndexKind where
  | plantPeriod
  | routePeriod
  | scenarioPlantPeriod
deriving DecidableEq, Repr

/-- The decision-variable families declared by `build_stochastic_model`
(stochastic_model.py lines 61-68): the shared first-stage variables
`Prod`, `Ship`, `Trips`, `UseMode` and the scenario-indexed recourse
variable `Inv`. No other variable family is declared. -/
def stochasticVariableFamilies : List (String × StochIndexKind) :=
  [ ("Prod", .plantPeriod)
  , ("Ship", .routePeriod)
  , ("Trips", .routePeriod)
  , ("UseMode", .routePeriod)
  , ("Inv", .scenarioPlantPeriod) ]

/-- Index sets and parameters of the stochastic model that its objective
reads (`build_stochastic_model`): plants, months, routes, scenarios,
production cost, holding cost, cost per trip, and scenario probability. -/
structure StochModelData where
  P : List String
  T : List String
  R : List (String × String × String)
  S : List String
  ProdCost : String → ℚ
  HoldCost : String → ℚ
  CostPerTrip : String × String × String → ℚ
  Prob : String → ℚ

/-- A (solved) assignment to the stochastic model's variables: shared
`Prod`/`Ship`/`Trips`/`UseMode` and scenario-indexed `Inv`. -/
structure StochAssign where
  Prod : String → String → ℚ
  Ship : String × String × String → String → ℚ
  Trips : String × String × String → String → ℚ
  UseMode : String × String × String → String → ℚ
  Inv : String → String → String → ℚ

/-- Objective of the stochastic model (`expected_cost_obj` in
stochastic_model.py lines 150-157): production cost + transport cost
(trips × cost per trip) + probability-weighted holding cost. -/
def expectedCostObj (d : StochModelData) (v : StochAssign) : ℚ :=
  sumOver d.P (fun p => sumOver d.T (fun t => d.ProdCost p * v.Prod p t))
    + sumOver d.R (fun r => sumOver d.T (fun t => d.CostPerTrip r * v.Trips r t))
    + sumOver d.S (fun s => sumOver d.P (fun p => sumOver d.T (fun t =>
        d.Prob s * d.HoldCost p * v.Inv s p t)))

/-- Holding cost realized in one scenario: `Σ_p Σ_t HoldCost × Inv[s,p,t]`. -/
def scenarioHoldingCost (d : StochModelData) (v : StochAssign) (s : String) : ℚ :=
  sumOver d.P (fun p => sumOver d.T (fun t => d.HoldCost p * v.Inv s p t))

/-- Claim C3, counterexample: the stochastic model declares no
`DemandSlack` variable family at all — contrary to the claim that a
non-negative `DemandSlack[scenario, plant, period]` exists — so no penalty
term over slack can appear in its objective. -/
theorem stochasticModel_has_no_demandSlack :
    stochasticVariableFamilies.all (fun f => f.1 ≠ "DemandSlack") = true := by
  decide

/-- Claim C3 (amended): `Prod`, `Ship`, `Trips`, and the mode-selection
binary `UseMode` are indexed by (plant-or-route, period) and shared across
scenarios, and `Inv` is the only scenario-indexed family — there is no
`DemandSlack` variable; the objective equals first-stage production cost
plus transport cost plus the probability-weighted sum over scenarios of
that scenario's holding cost, with no penalty term. -/
theorem stochasticModel_structure
    (d : StochModelData) (v : StochAssign) :
    ("Prod", StochIndexKind.plantPeriod) ∈ stochasticVariableFamilies
      ∧ ("Ship", StochIndexKind.routePeriod) ∈ stochasticVariableFamilies
      ∧ ("Trips", StochIndexKind.routePeriod) ∈ stochasticVariableFamilies
      ∧ ("UseMode", StochIndexKind.routePeriod) ∈ stochasticVariableFamilies
      ∧ ("Inv", StochIndexKind.scenarioPlantPeriod) ∈ stochasticVariableFamilies
      ∧ (∀ f ∈ stochasticVariableFamilies,
          f.2 = StochIndexKind.scenarioPlantPeriod → f.1 = "Inv")
      ∧ (∀ f ∈ stochasticVariableFamilies, f.1 ≠ "DemandSlack")
      ∧ expectedCostObj d v
          = sumOver d.P (fun p => sumOver d.T (fun t => d.ProdCost p * v.Prod p t))
            + sumOver d.R (fun r => sumOver d.T (fun t => d.CostPerTrip r * v.Trips r t))
            + sumOver d.S (fun s => d.Prob s * scenarioHoldingCost d v s) := by
  refine ⟨by decide, by decide, by decide, by decide, by decide, by decide, by decide, ?_⟩
  unfold expectedCostObj scenarioHoldingCost
  have h : ∀ s,
      sumOver d.P (fun p => sumOver d.T (fun t => d.Prob s * d.HoldCost p * v.Inv s p t))
        = d.Prob s * sumOver d.P (fun p => sumOver d.T (fun t => d.HoldCost p * v.Inv s p t)) := by
    intro s
    rw [← sumOver_mul_left]
    refine sumOver_congr _ _ _ (fun p _ => ?_)
    rw [← sumOver_mul_left]
    refine sumOver_congr _ _ _ (fun t _ => ?_)
    ring
  rw [sumOver_congr _ _ _ (fun s _ => h s)]

end ClinkerOpt


namespace ClinkerOpt

/-! ## Solver orchestration (solver.py `solve_model`)

`solve_model` first normalizes the configured backend name with
`strip().lower()`; the embedding takes `requested` to be that normalized
name, since the selection logic only ever sees the normalized form. -/

/-- The enumerated set of accepted backend names (solver.py line 60):
`{"gurobi", "cbc", "highs", "scip"}`. -/
def allowedBackends : List String := ["gurobi", "cbc", "highs", "scip"]

/-- Fixed fallback order by requested backend (solver.py lines 76-85). -/
def fallbackChain (requested : String) : List String :=
  if requested = "gurobi" then ["cbc", "highs", "scip"]
  else if requested = "cbc" then ["highs", "scip"]
  else if requested = "highs" then ["scip"]
  else []

/-- Result of backend selection inside `solve_model`: invalid name
(termination "invalid"), no available backend after the fallback walk
(termination "not_available"), or a selected available backend with which
the solve proceeds. -/
inductive BackendSelection where
  | invalid
  | notAvailable
  | selected (backend : String)
deriving DecidableEq, Repr

/-- The fallback loop of solver.py lines 89-94: walk the chain in order
and stop at the first available backend. -/
def walkFallback : List String → (String → Bool) → Option String
  | [], _ => none
  | b :: rest, avail => if avail b then some b else walkFallback rest avail

/-- Backend selection of `solve_model` (solver.py lines 58-107): reject
names outside `allowedBackends` outright; otherwise use the requested
backend when available; when it is not, walk the fallback chain and
report `not_available` if the walk finds nothing. -/
def solveModelBackend (requested : String) (avail : String → Bool) : BackendSelection :=
  if requested ∈ allowedBackends then
    if avail requested then .selected requested
    else
      match walkFallback (fallbackChain requested) avail with
      | some b => .selected b
      | none => .notAvailable
  else .invalid

/-- Termination-condition string reported for each failing selection
(solver.py lines 64 and 104); a successful selection proceeds to the
solve and reports the solver's own condition. -/
def selectionTermination : BackendSelection → Option String
  | .invalid => some "invalid"
  | .notAvailable => some "not_available"
  | .selected _ => none

/-- Termination-condition string reported when the solver proves the model
infeasible (solver.py line 162 guard). -/
def infeasibleTermination : String := "infeasible"

theorem walkFallback_eq_some_iff (l : List String) (avail : String → Bool) (b : String) :
    walkFallback l avail = some b
      ↔ ∃ pre post, l = pre ++ b :: post ∧ avail b = true
          ∧ ∀ c ∈ pre, avail c = false := by
  induction l with
  | nil =>
      simp only [walkFallback]
      constructor
      · intro h
        exact absurd h (by simp)
      · rintro ⟨pre, post, h, -, -⟩
        exact absurd h (by simp)
  | cons a rest ih =>
      simp only [walkFallback]
      by_cases ha : avail a = true
      · simp only [ha, if_true]
        constructor
        · intro h
          have hab : a = b := by injection h
          subst hab
          exact ⟨[], rest, rfl, ha, by simp⟩
        · rintro ⟨pre, post, hl, hb, hpre⟩
          cases pre with
          | nil =>
              simp only [List.nil_append, List.cons.injEq] at hl
              simp [hl.1]
          | cons x xs =>
              simp only [List.cons_append, List.cons.injEq] at hl
              have hx : avail x = false := hpre x (by simp)
              rw [← hl.1] at hx
              rw [hx] at ha
              exact absurd ha (by simp)
      · have ha' : avail a = false := by
          cases h : avail a
          · rfl
          · exact absurd h ha
        simp only [ha', if_false, Bool.false_eq_true]
        rw [ih]
        constructor
        · rintro ⟨pre, post, hl, hb, hpre⟩
          refine ⟨a :: pre, post, by simp [hl], hb, ?_⟩
          intro c hc
          rcases List.mem_cons.1 hc with h | h
          · rw [h]; exact ha'
          · exact hpre c h
        · rintro ⟨pre, post, hl, hb, hpre⟩
          cases pre with
          | nil =>
              simp only [List.nil_append, List.cons.injEq] at hl
              rw [← hl.1] at hb
              rw [hb] at ha'
              exact absurd ha' (by simp)
          | cons x xs =>
              simp only [List.cons_append, List.cons.injEq] at hl
              refine ⟨xs, post, hl.2, hb, ?_⟩
              intro c hc
              exact hpre c (List.mem_cons_of_mem x hc)

/-- Claim C4: (1) a backend name outside the enumerated set is rejected as
invalid regardless of availability, with no fallback attempted; (2) for a
valid but unavailable backend, the orchestrator walks the fixed fallback
chain and selects the first available backend on it; (3) when the
requested backend and its whole chain are unavailable, the outcome is the
distinct terminal condition "not_available", which differs from the
"infeasible" termination. -/
theorem solveModelBackend_contract (requested : String) (avail : String → Bool) :
    (requested ∉ allowedBackends → solveModelBackend requested avail = .invalid)
      ∧ (∀ b pre post,
          requested ∈ allowedBackends →
          avail requested = false →
          fallbackChain requested = pre ++ b :: post →
          avail b = true →
          (∀ c ∈ pre, avail c = false) →
          solveModelBackend requested avail = .selected b)
      ∧ (requested ∈ allowedBackends →
          (∀ b ∈ requested :: fallbackChain requested, avail b = false) →
          solveModelBackend requested avail = .notAvailable
            ∧ selectionTermination (solveModelBackend requested avail) = some "not_available"
            ∧ "not_available" ≠ infeasibleTermination) := by
  refine ⟨?_, ?_, ?_⟩
  · intro h
    unfold solveModelBackend
    simp only [h, if_false]
  · intro b pre post hmem hunav hchain hb hpre
    unfold solveModelBackend
    simp only [hmem, if_true, hunav, Bool.false_eq_true, if_false]
    have hwalk : walkFallback (fallbackChain requested) avail = some b :=
      (walkFallback_eq_some_iff _ _ _).2 ⟨pre, post, hchain, hb, hpre⟩
    rw [hwalk]
  · intro hmem hall
    have hreq : avail requested = false :=
      hall _ (List.mem_cons_self _ _)
    have hwalk : walkFallback (fallbackChain requested) avail = none := by
      cases hw : walkFallback (fallbackChain requested) avail with
      | none => rfl
      | some b =>
          rcases (walkFallback_eq_some_iff _ _ _).1 hw with ⟨pre, post, hl, hb, -⟩
          have hbmem : b ∈ fallbackChain requested := by
            rw [hl]
            simp
          have hfb := hall b (List.mem_cons_of_mem _ hbmem)
          rw [hfb] at hb
          exact absurd hb (by simp)
    have hsel : solveModelBackend requested avail = .notAvailable := by
      unfold solveModelBackend
      simp only [hmem, if_true, hreq, Bool.false_eq_true, if_false, hwalk]
    refine ⟨hsel, ?_, by decide⟩
    rw [hsel]
    rfl

/-- Witness for C4 at concrete inputs: the unknown backend "cplex" is
rejected as invalid; a request for "gurobi" with only "highs" installed
falls back to "highs" (skipping the unavailable "cbc"); and a request for
"scip" with nothing installed ends as "not_available". -/
theorem solveModelBackend_contract_witness :
    solveModelBackend "cplex" (fun _ => true) = .invalid
      ∧ solveModelBackend "gurobi" (fun b => b = "highs") = .selected "highs"
      ∧ solveModelBackend "scip" (fun _ => false) = .notAvailable := by
  refine ⟨?_, ?_, ?_⟩
  · exact (solveModelBackend_contract "cplex" (fun _ => true)).1 (by decide)
  · exact (solveModelBackend_contract "gurobi" (fun b => b = "highs")).2.1
      "highs" ["cbc"] ["scip"] (by decide) (by decide) (by decide) (by decide)
      (by
        intro c hc
        simp only [List.mem_singleton] at hc
        subst hc
        decide)
  · exact ((solveModelBackend_contract "scip" (fun _ => false)).2.2 (by decide)
      (by intro b _; rfl)).1

end ClinkerOpt

namespace ClinkerOpt

/-! ## Resilience scoring (analytics_service.py lines 175-203) -/

/-- Mean of a utilization-percent column. -/
def listAvg (l : List ℚ) : ℚ := l.sum / l.length

/-- The `_avg_headroom` helper (analytics_service.py lines 175-180): for an
empty utilization table return no component; otherwise return the average
utilization and the headroom `max(0, 100 - avg)`. -/
def avgHeadroom (utils : List ℚ) : Option ℚ × Option ℚ :=
  match utils with
  | [] => (none, none)
  | _ :: _ => (some (listAvg utils), some (max 0 (100 - listAvg utils)))

/-- The resilience components dictionary (analytics_service.py lines
188-193): service level plus the three optional headrooms. -/
def resilienceComponents (serviceLevel : ℚ)
    (prodUtils storUtils transUtils : List ℚ) : List (Option ℚ) :=
  [ some serviceLevel
  , (avgHeadroom prodUtils).2
  , (avgHeadroom storUtils).2
  , (avgHeadroom transUtils).2 ]

/-- The resilience score (analytics_service.py lines 195-196): the average
of the non-missing components, or 0 when none is present. -/
def resilienceScore (serviceLevel : ℚ)
    (prodUtils storUtils transUtils : List ℚ) : ℚ :=
  let vals := (resilienceComponents serviceLevel prodUtils storUtils transUtils).filterMap id
  if vals.isEmpty then 0 else vals.sum / vals.length

/-- The resilience classification (analytics_service.py lines 198-203):
Resilient when the score is at least 80, Balanced when at least 60, and
At Risk below 60. -/
def classifyResilience (score : ℚ) : String :=
  if 80 ≤ score then "Resilient"
  else if 60 ≤ score then "Balanced"
  else "At Risk"

/-- Resilience score following the spec's words: the unweighted average of
the service level and the three headroom measures, each headroom being
plainly `100 - utilization`. -/
def claimedResilienceScore (serviceLevel prodUtil storUtil transUtil : ℚ) : ℚ :=
  (serviceLevel + (100 - prodUtil) + (100 - storUtil) + (100 - transUtil)) / 4

/-- Claim C7, counterexample: with service level 100 and average
utilizations 0%, 120%, 0%, the code clamps the storage headroom at 0 and
scores 75, while the claimed plain average of service level and
`100 - utilization` would score 70; the score is not the claimed formula. -/
theorem resilienceScore_ne_claimed :
    resilienceScore 100 [0] [120] [0] = 75
      ∧ claimedResilienceScore 100 0 120 0 = 70
      ∧ resilienceScore 100 [0] [120] [0] ≠ claimedResilienceScore 100 0 120 0 := by
  refine ⟨?_, ?_, ?_⟩ <;>
    norm_num [resilienceScore, resilienceComponents, avgHeadroom, listAvg,
      claimedResilienceScore, List.filterMap]

/-- Claim C7 (amended): when all three utilization tables are non-empty the
resilience score is the unweighted average of the service level and the
three headroom measures, where each headroom is clamped below at zero —
`max(0, 100 - average utilization)` — and the classification is Resilient
at score ≥ 80, Balanced at ≥ 60, At Risk below 60; in particular service
level 100 with all three headrooms 50 scores 62.5 (Balanced), all
components 85 score 85 (Resilient), and all components 40 score 40
(At Risk). -/
theorem resilienceScore_formula (sl : ℚ) (pu su tu : List ℚ)
    (hp : pu ≠ []) (hs : su ≠ []) (ht : tu ≠ []) :
    resilienceScore sl pu su tu
        = (sl + max 0 (100 - listAvg pu) + max 0 (100 - listAvg su)
            + max 0 (100 - listAvg tu)) / 4
      ∧ (∀ x : ℚ, 80 ≤ x → classifyResilience x = "Resilient")
      ∧ (∀ x : ℚ, 60 ≤ x → x < 80 → classifyResilience x = "Balanced")
      ∧ (∀ x : ℚ, x < 60 → classifyResilience x = "At Risk")
      ∧ resilienceScore 100 [50] [50] [50] = 125 / 2
      ∧ classifyResilience (resilienceScore 100 [50] [50] [50]) = "Balanced"
      ∧ resilienceScore 85 [15] [15] [15] = 85
      ∧ classifyResilience (resilienceScore 85 [15] [15] [15]) = "Resilient"
      ∧ resilienceScore 40 [60] [60] [60] = 40
      ∧ classifyResilience (resilienceScore 40 [60] [60] [60]) = "At Risk" := by
  refine ⟨?_, ?_, ?_, ?_, ?_, ?_, ?_, ?_, ?_, ?_⟩
  · cases pu with
    | nil => exact absurd rfl hp
    | cons a pus =>
        cases su with
        | nil => exact absurd rfl hs
        | cons b sus =>
            cases tu with
            | nil => exact absurd rfl ht
            | cons c tus =>
                simp only [resilienceScore, resilienceComponents, avgHeadroom,
                  List.filterMap, List.isEmpty, List.sum_cons, List.sum_nil,
                  List.length_cons, List.length_nil]
                norm_num
                ring
  · intro x hx
    simp only [classifyResilience, if_pos hx]
  · intro x hx1 hx2
    simp only [classifyResilience, if_neg (not_le.2 hx2), if_pos hx1]
  · intro x hx
    have h1 : ¬ (80 : ℚ) ≤ x := not_le.2 (lt_trans hx (by norm_num))
    have h2 : ¬ (60 : ℚ) ≤ x := not_le.2 hx
    simp only [classifyResilience, if_neg h1, if_neg h2]
  · norm_num [resilienceScore, resilienceComponents, avgHeadroom, listAvg, List.filterMap]
  · norm_num [resilienceScore, resilienceComponents, avgHeadroom, listAvg,
      List.filterMap, classifyResilience]
  · norm_num [resilienceScore, resilienceComponents, avgHeadroom, listAvg, List.filterMap]
  · norm_num [resilienceScore, resilienceComponents, avgHeadroom, listAvg,
      List.filterMap, classifyResilience]
  · norm_num [resilienceScore, resilienceComponents, avgHeadroom, listAvg, List.filterMap]
  · norm_num [resilienceScore, resilienceComponents, avgHeadroom, listAvg,
      List.filterMap, classifyResilience]

/-- Witness for the amended C7 theorem: at service level 100 and the three
utilization tables each 50%, the score is 62.5 and the classification is
Balanced. -/
theorem resilienceScore_formula_witness :
    resilienceScore 100 [50] [50] [50] = 125 / 2
      ∧ classifyResilience (resilienceScore 100 [50] [50] [50]) = "Balanced" := by
  have h := resilienceScore_formula 100 [50] [50] [50]
    (List.cons_ne_nil _ _) (List.cons_ne_nil _ _) (List.cons_ne_nil _ _)
  exact ⟨h.2.2.2.2.1, h.2.2.2.2.2.1⟩

end ClinkerOpt

namespace ClinkerOpt

/-! ## Result parser row emission (result_parser.py lines 40-94,
uncertainty/result_parser.py lines 49-94) -/

/-- Membership in a conditional singleton, the list shape produced by a
Python `if cond: rows.append(x)` loop body. -/
theorem mem_ite_singleton {α : Type} {c : Prop} [Decidable c] {a x : α} :
    (a ∈ (if c then [x] else ([] : List α))) ↔ c ∧ a = x := by
  split
  · rename_i h
    simp [h]
  · rename_i h
    simp [h]

/-- Production rows of `parse_results` (result_parser.py lines 41-53): one
row per (plant, month) whose solved production is non-zero, carrying the
solved quantity; the test is the exact comparison `qty != 0`. -/
def parseProductionRows (P T : List String) (prod : String → String → ℚ) :
    List (String × String × ℚ) :=
  P.flatMap (fun p => T.flatMap (fun t =>
    if prod p t ≠ 0 then [(p, t, prod p t)] else []))

/-- Transport rows of `parse_results` (result_parser.py lines 58-76): one
row per (route, month) whose solved shipment or trip count is non-zero
(exact tests `ship_qty != 0 or trips != 0`), carrying the solved shipment
and trip values (the Python row converts trips with `int(round(...))`). -/
def parseTransportRows (R : List (String × String × String)) (T : List String)
    (ship trips : String × String × String → String → ℚ) :
    List ((String × String × String) × String × ℚ × ℚ) :=
  R.flatMap (fun r => T.flatMap (fun t =>
    if ship r t ≠ 0 ∨ trips r t ≠ 0 then [(r, t, ship r t, trips r t)] else []))

/-- Production-row filter following the spec's words: rows are emitted only
for values that are non-zero beyond some small positive epsilon. -/
def claimedEpsilonFilter : Prop :=
  ∃ ε : ℚ, 0 < ε ∧
    ∀ (P T : List String) (prod : String → String → ℚ) (p t : String) (v : ℚ),
      (p, t, v) ∈ parseProductionRows P T prod → ε < |v|

/-- Claim C8, counterexample: there is no positive epsilon below which the
parser suppresses rows — for any candidate ε the parser still emits a
production row with value ε/2, because the code's filter is the exact
comparison `qty != 0`, not an epsilon test. -/
theorem parseRows_no_epsilon : ¬ claimedEpsilonFilter := by
  rintro ⟨ε, hε, h⟩
  have hhalf : (0 : ℚ) < ε / 2 := by positivity
  have hne : (ε / 2 : ℚ) ≠ 0 := ne_of_gt hhalf
  have hmem : ("p", "t", ε / 2) ∈ parseProductionRows ["p"] ["t"] (fun _ _ => ε / 2) := by
    simp [parseProductionRows, hne]
  have habs := h ["p"] ["t"] (fun _ _ => ε / 2) "p" "t" (ε / 2) hmem
  rw [abs_of_pos hhalf] at habs
  linarith

/-- Claim C8 (amended): the parser emits exactly the assignments whose
value is non-zero under the exact comparison with 0 (no epsilon
tolerance): a production row for (plant, period) appears iff the solved
production is non-zero, a transport row for (route, period) appears iff
the solved shipment or trip count is non-zero, and all exactly-zero-valued
production/shipment/trip combinations are omitted. -/
theorem parseRows_exact_nonzero_filter
    (P T : List String) (prod : String → String → ℚ)
    (R : List (String × String × String)) (M : List String)
    (ship trips : String × String × String → String → ℚ)
    (p t : String) (v : ℚ)
    (r : String × String × String) (m : String) (sv tv : ℚ) :
    ((p, t, v) ∈ parseProductionRows P T prod
        ↔ p ∈ P ∧ t ∈ T ∧ v = prod p t ∧ prod p t ≠ 0)
      ∧ ((r, m, sv, tv) ∈ parseTransportRows R M ship trips
        ↔ r ∈ R ∧ m ∈ M ∧ sv = ship r m ∧ tv = trips r m
            ∧ (ship r m ≠ 0 ∨ trips r m ≠ 0)) := by
  constructor
  · rw [parseProductionRows]
    simp only [List.mem_flatMap, mem_ite_singleton, Prod.mk.injEq]
    constructor
    · rintro ⟨p', hp', t', ht', hne, hp, ht, hv⟩
      subst hp
      subst ht
      exact ⟨hp', ht', hv, hne⟩
    · rintro ⟨hp, ht, hv, hne⟩
      exact ⟨p, hp, t, ht, hne, rfl, rfl, hv⟩
  · rw [parseTransportRows]
    simp only [List.mem_flatMap, mem_ite_singleton, Prod.mk.injEq]
    constructor
    · rintro ⟨r', hr', m', hm', hne, hr, hm, hs, ht⟩
      subst hr
      subst hm
      exact ⟨hr', hm', hs, ht, hne⟩
    · rintro ⟨hr, hm, hs, ht, hne⟩
      exact ⟨r, hr, m, hm, hne, rfl, rfl, hs, ht⟩

/-- Witness for the amended C8 theorem at concrete values: on a plant with
solved production 7 the row appears, and on a plant with production 0 it
does not. -/
theorem parseRows_exact_nonzero_filter_witness :
    ("p1", "m1", (7 : ℚ)) ∈ parseProductionRows ["p1"] ["m1"] (fun _ _ => 7)
      ∧ ¬ ("p1", "m1", (0 : ℚ)) ∈ parseProductionRows ["p1"] ["m1"] (fun _ _ => 0) := by
  constructor
  · exact (parseRows_exact_nonzero_filter ["p1"] ["m1"] (fun _ _ => 7)
      [] [] (fun _ _ => 0) (fun _ _ => 0) "p1" "m1" 7
      ("a", "b", "c") "m" 0 0).1.2
      ⟨by simp, by simp, rfl, by norm_num⟩
  · intro hmem
    have h := (parseRows_exact_nonzero_filter ["p1"] ["m1"] (fun _ _ => 0)
      [] [] (fun _ _ => 0) (fun _ _ => 0) "p1" "m1" 0
      ("a", "b", "c") "m" 0 0).1.1 hmem
    exact h.2.2.2 rfl

/-- Inventory rows of `parse_results` (result_parser.py lines 81-94): one
row per (plant, month), unconditionally, carrying the solved inventory
level. -/
def parseInventoryRows (P T : List String) (inv : String → String → ℚ) :
    List (String × String × ℚ) :=
  P.flatMap (fun p => T.map (fun t => (p, t, inv p t)))

/-- Inventory rows of `parse_uncertainty_results`
(uncertainty/result_parser.py lines 80-94): one row per
(scenario, plant, month), unconditionally. -/
def parseUncertaintyInventoryRows (S P T : List String)
    (inv : String → String → String → ℚ) :
    List (String × String × String × ℚ) :=
  S.flatMap (fun s => P.flatMap (fun p => T.map (fun t => (s, p, t, inv s p t))))

theorem length_bind_const {α β : Type} (l : List α) (f : α → List β) (n : ℕ)
    (h : ∀ a ∈ l, (f a).length = n) : (l.flatMap f).length = l.length * n := by
  induction l with
  | nil => simp
  | cons a rest ih =>
      simp only [List.flatMap_cons, List.length_append, List.length_cons]
      rw [h a (List.mem_cons_self a rest),
        ih (fun x hx => h x (List.mem_cons_of_mem a hx))]
      ring

/-- Claim C10: inventory rows are emitted for every (plant, period) pair in
deterministic runs and for every (scenario, plant, period) triple in
uncertainty runs — with no non-zero filter, so rows with inventory exactly
zero are included — and the inventory table always has
plants × periods (× scenarios) rows whatever the solution values are. -/
theorem parseInventoryRows_complete
    (P T S : List String) (inv : String → String → ℚ)
    (invU : String → String → String → ℚ) (p t s : String) :
    (parseInventoryRows P T inv).length = P.length * T.length
      ∧ ((p, t, inv p t) ∈ parseInventoryRows P T inv ↔ p ∈ P ∧ t ∈ T)
      ∧ (parseUncertaintyInventoryRows S P T invU).length
          = S.length * (P.length * T.length)
      ∧ ((s, p, t, invU s p t) ∈ parseUncertaintyInventoryRows S P T invU
          ↔ s ∈ S ∧ p ∈ P ∧ t ∈ T) := by
  refine ⟨?_, ?_, ?_, ?_⟩
  · exact length_bind_const P _ T.length (fun a _ => by simp [List.length_map])
  · rw [parseInventoryRows]
    simp only [List.mem_flatMap, List.mem_map, Prod.mk.injEq]
    constructor
    · rintro ⟨p', hp', t', ht', hp, ht, -⟩
      subst hp
      subst ht
      exact ⟨hp', ht'⟩
    · rintro ⟨hp, ht⟩
      exact ⟨p, hp, t, ht, rfl, rfl, rfl⟩
  · refine length_bind_const S _ (P.length * T.length) (fun a _ => ?_)
    exact length_bind_const P _ T.length (fun b _ => by simp [List.length_map])
  · rw [parseUncertaintyInventoryRows]
    simp only [List.mem_flatMap, List.mem_map, Prod.mk.injEq]
    constructor
    · rintro ⟨s', hs', p', hp', t', ht', hs, hp, ht, -⟩
      subst hs
      subst hp
      subst ht
      exact ⟨hs', hp', ht'⟩
    · rintro ⟨hs, hp, ht⟩
      exact ⟨s, hs, p, hp, t, ht, rfl, rfl, rfl, rfl⟩

/-- Witness for C10 at concrete values: with two plants, two months and an
all-zero solved inventory, the deterministic inventory table still has
2 × 2 rows and contains the zero-valued row for ("p1", "m1"). -/
theorem parseInventoryRows_complete_witness :
    (parseInventoryRows ["p1", "p2"] ["m1", "m2"] (fun _ _ => 0)).length = 4
      ∧ ("p1", "m1", (0 : ℚ)) ∈ parseInventoryRows ["p1", "p2"] ["m1", "m2"] (fun _ _ => 0) := by
  have h := parseInventoryRows_complete ["p1", "p2"] ["m1", "m2"] []
    (fun _ _ => 0) (fun _ _ _ => 0) "p1" "m1" "s"
  exact ⟨h.1, h.2.1.2 ⟨by simp, by simp⟩⟩

end ClinkerOpt

namespace ClinkerOpt

/-! ## Dataset assembly of routes (data_loader.py lines 204-226)

`assemble_optimization_data` iterates the raw route records; records whose
origin or destination is not among the active plants are skipped with
`continue` before any validation, and kept records are validated for
negative cost/capacity/SBQ and for SBQ exceeding capacity. The source
strips whitespace from the transport-mode string; the embedding takes the
mode as given. -/

/-- A raw transport-route record as read from the route collection. -/
structure RouteRecord where
  fromPlantId : String
  toPlantId : String
  transportMode : String
  costPerTrip : ℚ
  capacityPerTrip : ℚ
  sbq : ℚ
  isEnabled : Bool

/-- The per-route parameter values stored by the assembler. -/
structure RouteParams where
  cost : ℚ
  cap : ℚ
  sbq : ℚ
  enabled : Bool
deriving DecidableEq, Repr

/-- The route loop of `assemble_optimization_data` (data_loader.py lines
204-226): skip records referencing unknown plants, reject negative
cost/capacity/SBQ and SBQ above capacity on kept records, and collect the
keyed route parameters in input order. -/
def assembleRoutes (plantIds : List String) :
    List RouteRecord → Except String (List ((String × String × String) × RouteParams))
  | [] => .ok []
  | r :: rest =>
      if r.fromPlantId ∈ plantIds ∧ r.toPlantId ∈ plantIds then
        if r.capacityPerTrip < 0 ∨ r.costPerTrip < 0 ∨ r.sbq < 0 then
          .error "Transport cost/capacity/SBQ cannot be negative."
        else if r.capacityPerTrip < r.sbq then
          .error "SBQ cannot exceed capacity for route."
        else
          match assembleRoutes plantIds rest with
          | .ok tail =>
              .ok (((r.fromPlantId, r.toPlantId, r.transportMode),
                ⟨r.costPerTrip, r.capacityPerTrip, r.sbq, r.isEnabled⟩) :: tail)
          | .error e => .error e
      else assembleRoutes plantIds rest

/-- Claim C9: route records whose origin or destination is not among the
active plants are silently dropped — assembling any route list gives
exactly the same outcome (same dataset or same validation error) as
assembling the sublist of records whose endpoints are known — so the
negative-value and SBQ-above-capacity checks are never applied to dropped
records and an invalid dropped record cannot fail assembly; moreover every
route key in a successfully assembled dataset references known plants. -/
theorem assembleRoutes_drops_unknown_plants
    (plantIds : List String) (routes : List RouteRecord) :
    assembleRoutes plantIds routes
        = assembleRoutes plantIds (routes.filter
            (fun r => decide (r.fromPlantId ∈ plantIds ∧ r.toPlantId ∈ plantIds)))
      ∧ ∀ res, assembleRoutes plantIds routes = .ok res →
          ∀ e ∈ res, e.1.1 ∈ plantIds ∧ e.1.2.1 ∈ plantIds := by
  constructor
  · induction routes with
    | nil => rfl
    | cons r rest ih =>
        by_cases hc : r.fromPlantId ∈ plantIds ∧ r.toPlantId ∈ plantIds
        · rw [List.filter_cons_of_pos (by simpa using hc)]
          simp only [assembleRoutes, if_pos hc]
          rw [ih]
        · rw [List.filter_cons_of_neg (by simpa using hc)]
          simp only [assembleRoutes, if_neg hc]
          exact ih
  · induction routes with
    | nil =>
        intro res hres e he
        simp only [assembleRoutes] at hres
        cases hres
        exact absurd he (by simp)
    | cons r rest ih =>
        intro res hres e he
        simp only [assembleRoutes] at hres
        by_cases hc : r.fromPlantId ∈ plantIds ∧ r.toPlantId ∈ plantIds
        · rw [if_pos hc] at hres
          by_cases hneg : r.capacityPerTrip < 0 ∨ r.costPerTrip < 0 ∨ r.sbq < 0
          · rw [if_pos hneg] at hres
            cases hres
          · rw [if_neg hneg] at hres
            by_cases hsbq : r.capacityPerTrip < r.sbq
            · rw [if_pos hsbq] at hres
              cases hres
            · rw [if_neg hsbq] at hres
              cases htail : assembleRoutes plantIds rest with
              | ok tail =>
                  rw [htail] at hres
                  cases hres
                  rcases List.mem_cons.1 he with h | h
                  · subst h
                    exact hc
                  · exact ih tail htail e h
              | error msg =>
                  rw [htail] at hres
                  cases hres
        · rw [if_neg hc] at hres
          exact ih res hres e he

/-- Concrete plant list for the C9 witness. -/
def pids0 : List String := ["p1", "p2"]

/-- Concrete route records for the C9 witness: the first references the
unknown destination "zz" and carries a negative cost and an SBQ above its
capacity; the second is a valid route between known plants. -/
def routes0 : List RouteRecord :=
  [ { fromPlantId := "p1", toPlantId := "zz", transportMode := "road"
      costPerTrip := -5, capacityPerTrip := 10, sbq := 50, isEnabled := true }
  , { fromPlantId := "p1", toPlantId := "p2", transportMode := "road"
      costPerTrip := 2, capacityPerTrip := 10, sbq := 5, isEnabled := true } ]

/-- Witness for C9 at concrete data: assembling `routes0` — whose first
record has a negative cost and SBQ > capacity but references the unknown
plant "zz" — succeeds, equals assembling only the well-referenced record,
and the surviving route key references known plants. -/
theorem assembleRoutes_drops_unknown_plants_witness :
    assembleRoutes pids0 routes0
        = assembleRoutes pids0 (routes0.filter
            (fun r => decide (r.fromPlantId ∈ pids0 ∧ r.toPlantId ∈ pids0)))
      ∧ ("p1" ∈ pids0 ∧ "p2" ∈ pids0) := by
  have h := assembleRoutes_drops_unknown_plants pids0 routes0
  have hok : assembleRoutes pids0 routes0
      = .ok [(("p1", "p2", "road"), ⟨2, 10, 5, true⟩)] := by
    norm_num [assembleRoutes, pids0, routes0]
    rintro (hbad | hbad) <;> exact absurd hbad (by decide)
  refine ⟨h.1, ?_⟩
  exact h.2 _ hok (("p1", "p2", "road"), ⟨2, 10, 5, true⟩) (by simp)

end ClinkerOpt

namespace ClinkerOpt

/-! ## Scenario generator (uncertainty/scenario_generator.py)

`generate_demand_scenarios` validates a list of scenario specs against a
base dataset and produces per-(scenario, plant, month) demands. Python
dictionaries keyed by scenario name are embedded as association lists with
overwriting insertion (`dictInsert`); the demand dictionary, which is only
ever read back pointwise, is embedded as a total function updated by
`mapUpdate`. -/

/-- Result of `Except` computations, as a Bool. -/
def isOkE {ε α : Type} : Except ε α → Bool
  | .ok _ => true
  | .error _ => false

/-- A scenario spec (`DemandScenario` in scenario_generator.py). -/
structure DemandScenario where
  name : String
  probability : ℚ
  demandMultiplier : ℚ

/-- The slice of `OptimizationData` the generator reads: plant ids, months
and the baseline demand lookup `demand.get((p, t), 0.0)`. -/
structure BaseData where
  plantIds : List String
  months : List String
  demand : String → String → ℚ

/-- The generator's output (`ScenarioDemandData` in
scenario_generator.py): scenario names, the probability dictionary and the
demand lookup keyed by (scenario, plant, month). -/
structure ScenarioDemandData where
  scenarioNames : List String
  probability : List (String × ℚ)
  demand : String × String × String → ℚ

/-- Python `str.strip()` on the underlying character list. -/
def stripChars (l : List Char) : List Char :=
  ((l.dropWhile Char.isWhitespace).reverse.dropWhile Char.isWhitespace).reverse

/-- Python `str.strip()`. -/
def pyStrip (s : String) : String := ⟨stripChars s.data⟩

/-- Python dict assignment `d[k] = v`: overwrite the key in place or
append it. -/
def dictInsert : List (String × ℚ) → String → ℚ → List (String × ℚ)
  | [], k, v => [(k, v)]
  | (k', v') :: rest, k, v =>
      if k' = k then (k, v) :: rest else (k', v') :: dictInsert rest k v

/-- Python `sum(d.values())`. -/
def dictValuesSum (d : List (String × ℚ)) : ℚ := (d.map Prod.snd).sum

/-- Pointwise update of the demand lookup, Python `d[k] = v`. -/
def mapUpdate (f : String × String × String → ℚ)
    (k : String × String × String) (v : ℚ) : String × String × String → ℚ :=
  fun x => if x = k then v else f x

/-- The stripped non-empty scenario names (scenario_generator.py line 60):
`[s.name.strip() for s in scenarios if (s.name or "").strip()]`. -/
def strippedNames (scenarios : List DemandScenario) : List String :=
  (scenarios.filter (fun s => pyStrip s.name ≠ "")).map (fun s => pyStrip s.name)

/-- The probability loop (scenario_generator.py lines 64-72): reject a
negative probability, otherwise store it in the dict keyed by the raw
scenario name. -/
def buildProbs : List DemandScenario → List (String × ℚ) → Except String (List (String × ℚ))
  | [], acc => .ok acc
  | s :: rest, acc =>
      if s.probability < 0 then .error "Scenario probability cannot be negative."
      else buildProbs rest (dictInsert acc s.name s.probability)

/-- The (plant, month) iteration order of the demand loop
(scenario_generator.py lines 87-88). -/
def plantMonthPairs (base : BaseData) : List (String × String) :=
  base.plantIds.flatMap (fun p => base.months.map (fun t => (p, t)))

/-- One scenario's inner demand loop (scenario_generator.py lines 87-90):
`demand[(s.name, p, t)] = base * mult` for every plant and month. -/
def writeScenarioDemand (base : BaseData) (s : DemandScenario)
    (f : String × String × String → ℚ) : String × String × String → ℚ :=
  (plantMonthPairs base).foldl
    (fun g pt => mapUpdate g (s.name, pt.1, pt.2) (base.demand pt.1 pt.2 * s.demandMultiplier)) f

/-- The demand loop (scenario_generator.py lines 78-90): reject a negative
multiplier, otherwise write this scenario's demands. -/
def buildScenarioDemand (base : BaseData) :
    List DemandScenario → (String × String × String → ℚ) →
    Except String (String × String × String → ℚ)
  | [], acc => .ok acc
  | s :: rest, acc =>
      if s.demandMultiplier < 0 then .error "Demand multiplier cannot be negative."
      else buildScenarioDemand base rest (writeScenarioDemand base s acc)

/-- The probability dictionary after the probability loop, keyed by raw
scenario name with later duplicates overwriting earlier ones. -/
def scenarioProbDict (cs : List DemandScenario) : List (String × ℚ) :=
  cs.foldl (fun a s => dictInsert a s.name s.probability) []

/-- `generate_demand_scenarios` (scenario_generator.py lines 40-96): fail
on an empty spec list, on duplicate stripped non-empty names, on a negative
probability, when the probability dict values do not sum to 1 within 1e-6,
or on a negative multiplier; otherwise return the scenario names, the
probability dict and the scaled demands. -/
def generateDemandScenarios (base : BaseData) (scenarios : List DemandScenario) :
    Except String ScenarioDemandData :=
  if scenarios.isEmpty then .error "No scenarios configured."
  else if (strippedNames scenarios).dedup.length ≠ (strippedNames scenarios).length then
    .error "Scenario names must be unique."
  else
    match buildProbs scenarios [] with
    | .error e => .error e
    | .ok prob =>
        if 1 / 1000000 < |dictValuesSum prob - 1| then
          .error "Scenario probabilities must sum to 1."
        else
          match buildScenarioDemand base scenarios (fun _ => 0) with
          | .error e => .error e
          | .ok demand =>
              .ok { scenarioNames := strippedNames scenarios
                    probability := prob
                    demand := demand }

theorem buildProbs_isOk_iff (cs : List DemandScenario) :
    ∀ acc, isOkE (buildProbs cs acc) = true ↔ ∀ s ∈ cs, 0 ≤ s.probability := by
  induction cs with
  | nil =>
      intro acc
      simp [buildProbs, isOkE]
  | cons a rest ih =>
      intro acc
      simp only [buildProbs]
      by_cases ha : a.probability < 0
      · rw [if_pos ha]
        constructor
        · intro h
          exact absurd h (by simp [isOkE])
        · intro h
          exact absurd (h a (List.mem_cons_self a rest)) (not_le.2 ha)
      · rw [if_neg ha, ih]
        constructor
        · intro h s hs
          rcases List.mem_cons.1 hs with h1 | h1
          · subst h1
            exact not_lt.1 ha
          · exact h s h1
        · intro h s hs
          exact h s (List.mem_cons_of_mem a hs)

theorem buildProbs_ok (cs : List DemandScenario) :
    ∀ acc, (∀ s ∈ cs, 0 ≤ s.probability) →
      buildProbs cs acc = .ok (cs.foldl (fun a s => dictInsert a s.name s.probability) acc) := by
  induction cs with
  | nil =>
      intro acc _
      rfl
  | cons a rest ih =>
      intro acc h
      simp only [buildProbs, List.foldl_cons]
      rw [if_neg (not_lt.2 (h a (List.mem_cons_self a rest)))]
      exact ih _ (fun s hs => h s (List.mem_cons_of_mem a hs))

theorem buildScenarioDemand_isOk_iff (base : BaseData) (cs : List DemandScenario) :
    ∀ acc, isOkE (buildScenarioDemand base cs acc) = true
      ↔ ∀ s ∈ cs, 0 ≤ s.demandMultiplier := by
  induction cs with
  | nil =>
      intro acc
      simp [buildScenarioDemand, isOkE]
  | cons a rest ih =>
      intro acc
      simp only [buildScenarioDemand]
      by_cases ha : a.demandMultiplier < 0
      · rw [if_pos ha]
        constructor
        · intro h
          exact absurd h (by simp [isOkE])
        · intro h
          exact absurd (h a (List.mem_cons_self a rest)) (not_le.2 ha)
      · rw [if_neg ha, ih]
        constructor
        · intro h s hs
          rcases List.mem_cons.1 hs with h1 | h1
          · subst h1
            exact not_lt.1 ha
          · exact h s h1
        · intro h s hs
          exact h s (List.mem_cons_of_mem a hs)

theorem buildScenarioDemand_ok (base : BaseData) (cs : List DemandScenario) :
    ∀ acc, (∀ s ∈ cs, 0 ≤ s.demandMultiplier) →
      buildScenarioDemand base cs acc
        = .ok (cs.foldl (fun f s => writeScenarioDemand base s f) acc) := by
  induction cs with
  | nil =>
      intro acc _
      rfl
  | cons a rest ih =>
      intro acc h
      simp only [buildScenarioDemand, List.foldl_cons]
      rw [if_neg (not_lt.2 (h a (List.mem_cons_self a rest)))]
      exact ih _ (fun s hs => h s (List.mem_cons_of_mem a hs))

theorem pairsFold_lookup_not_mem (pairs : List (String × String)) (n : String)
    (val : String × String → ℚ) (p t : String) (h : (p, t) ∉ pairs) :
    ∀ f, (pairs.foldl (fun g pt => mapUpdate g (n, pt.1, pt.2) (val pt)) f) (n, p, t)
      = f (n, p, t) := by
  induction pairs with
  | nil =>
      intro f
      rfl
  | cons a rest ih =>
      intro f
      rw [List.foldl_cons,
        ih (fun hr => h (List.mem_cons_of_mem a hr))]
      have hne : (p, t) ≠ a := fun he => h (he ▸ List.mem_cons_self a rest)
      rw [mapUpdate, if_neg]
      intro he
      apply hne
      have h1 : p = a.1 := congrArg (fun x => x.2.1) he
      have h2 : t = a.2 := congrArg (fun x => x.2.2) he
      cases a
      simp only at h1 h2
      rw [h1, h2]

theorem pairsFold_lookup_mem (pairs : List (String × String)) (n : String)
    (val : String × String → ℚ) (p t : String) (h : (p, t) ∈ pairs) :
    ∀ f, (pairs.foldl (fun g pt => mapUpdate g (n, pt.1, pt.2) (val pt)) f) (n, p, t)
      = val (p, t) := by
  induction pairs with
  | nil =>
      cases h
  | cons a rest ih =>
      intro f
      rw [List.foldl_cons]
      by_cases hr : (p, t) ∈ rest
      · exact ih hr _
      · have ha : (p, t) = a := (List.mem_cons.1 h).resolve_right hr
        rw [pairsFold_lookup_not_mem rest n val p t hr]
        rw [← ha]
        simp [mapUpdate]

theorem pairsFold_lookup_ne_name (pairs : List (String × String)) (n m : String)
    (val : String × String → ℚ) (p t : String) (h : m ≠ n) :
    ∀ f, (pairs.foldl (fun g pt => mapUpdate g (n, pt.1, pt.2) (val pt)) f) (m, p, t)
      = f (m, p, t) := by
  induction pairs with
  | nil =>
      intro f
      rfl
  | cons a rest ih =>
      intro f
      rw [List.foldl_cons, ih]
      rw [mapUpdate, if_neg]
      intro he
      exact h (congrArg (fun x => x.1) he)

theorem scenariosFold_preserve (base : BaseData) (cs : List DemandScenario)
    (n p t : String) :
    ∀ g, (∀ s' ∈ cs, s'.name ≠ n) →
      (cs.foldl (fun f s' => writeScenarioDemand base s' f) g) (n, p, t) = g (n, p, t) := by
  induction cs with
  | nil =>
      intro g _
      rfl
  | cons a rest ih =>
      intro g h
      rw [List.foldl_cons, ih _ (fun s' hs' => h s' (List.mem_cons_of_mem a hs'))]
      rw [writeScenarioDemand]
      exact pairsFold_lookup_ne_name _ _ _ _ _ _
        (fun he => h a (List.mem_cons_self a rest) he.symm) g

theorem scenariosFold_lookup (base : BaseData) (cs : List DemandScenario)
    (s : DemandScenario) (p t : String) :
    ∀ g, s ∈ cs → (cs.map DemandScenario.name).Nodup →
      p ∈ base.plantIds → t ∈ base.months →
      (cs.foldl (fun f s' => writeScenarioDemand base s' f) g) (s.name, p, t)
        = base.demand p t * s.demandMultiplier := by
  induction cs with
  | nil =>
      intro g h
      cases h
  | cons a rest ih =>
      intro g hmem hnodup hp ht
      rw [List.foldl_cons]
      rcases List.mem_cons.1 hmem with he | hr
      · subst he
        have hrest : ∀ s' ∈ rest, s'.name ≠ s.name := by
          intro s' hs' he'
          rw [List.map_cons, List.nodup_cons] at hnodup
          exact hnodup.1 (he' ▸ List.mem_map_of_mem DemandScenario.name hs')
        rw [scenariosFold_preserve base rest s.name p t _ hrest]
        have hpt : (p, t) ∈ plantMonthPairs base := by
          rw [plantMonthPairs, List.mem_flatMap]
          exact ⟨p, hp, List.mem_map_of_mem _ ht⟩
        rw [writeScenarioDemand]
        exact pairsFold_lookup_mem (plantMonthPairs base) s.name
          (fun pt => base.demand pt.1 pt.2 * s.demandMultiplier) p t hpt g
      · rw [List.map_cons, List.nodup_cons] at hnodup
        exact ih _ hr hnodup.2 hp ht

end ClinkerOpt

namespace ClinkerOpt

theorem generateDemandScenarios_isOk_iff (base : BaseData) (cs : List DemandScenario) :
    isOkE (generateDemandScenarios base cs) = true
      ↔ (strippedNames cs).Nodup
          ∧ (∀ s ∈ cs, 0 ≤ s.probability)
          ∧ (∀ s ∈ cs, 0 ≤ s.demandMultiplier)
          ∧ |dictValuesSum (scenarioProbDict cs) - 1| ≤ 1 / 1000000 := by
  rw [generateDemandScenarios]
  by_cases h0 : cs.isEmpty
  · rw [if_pos h0]
    have hcs : cs = [] := by
      cases cs with
      | nil => rfl
      | cons a l => simp [List.isEmpty] at h0
    subst hcs
    constructor
    · intro h
      exact absurd h (by simp [isOkE])
    · rintro ⟨-, -, -, h4⟩
      exact absurd h4 (by norm_num [scenarioProbDict, dictValuesSum])
  · rw [if_neg h0]
    by_cases h1 : (strippedNames cs).dedup.length ≠ (strippedNames cs).length
    · rw [if_pos h1]
      constructor
      · intro h
        exact absurd h (by simp [isOkE])
      · rintro ⟨hn, -, -, -⟩
        exact (h1 (by rw [List.dedup_eq_self.2 hn])).elim
    · rw [if_neg h1]
      push_neg at h1
      have hnodup : (strippedNames cs).Nodup := by
        have hsub := List.dedup_sublist (strippedNames cs)
        have heq := hsub.eq_of_length h1
        rw [← heq]
        exact List.nodup_dedup _
      by_cases h2 : ∀ s ∈ cs, 0 ≤ s.probability
      · rw [buildProbs_ok cs [] h2]
        dsimp only
        have hpd : cs.foldl (fun a s => dictInsert a s.name s.probability) []
            = scenarioProbDict cs := rfl
        rw [hpd]
        by_cases h3 : 1 / 1000000 < |dictValuesSum (scenarioProbDict cs) - 1|
        · rw [if_pos h3]
          constructor
          · intro h
            exact absurd h (by simp [isOkE])
          · rintro ⟨-, -, -, h4⟩
            exact absurd h3 (not_lt.2 h4)
        · rw [if_neg h3]
          by_cases h4 : ∀ s ∈ cs, 0 ≤ s.demandMultiplier
          · rw [buildScenarioDemand_ok base cs _ h4]
            dsimp only
            constructor
            · intro _
              exact ⟨hnodup, h2, h4, not_lt.1 h3⟩
            · intro _
              rfl
          · cases hbd : buildScenarioDemand base cs (fun _ => 0) with
            | ok dem =>
                exact absurd ((buildScenarioDemand_isOk_iff base cs _).1
                  (by rw [hbd]; rfl)) h4
            | error e =>
                dsimp only
                constructor
                · intro h
                  exact absurd h (by simp [isOkE])
                · rintro ⟨-, -, h4', -⟩
                  exact (h4 h4').elim
      · cases hbp : buildProbs cs [] with
        | ok prob =>
            exact absurd ((buildProbs_isOk_iff cs []).1 (by rw [hbp]; rfl)) h2
        | error e =>
            dsimp only
            constructor
            · intro h
              exact absurd h (by simp [isOkE])
            · rintro ⟨-, h2', -, -⟩
              exact (h2 h2').elim

theorem generateDemandScenarios_ok_demand (base : BaseData) (cs : List DemandScenario)
    (out : ScenarioDemandData) (hout : generateDemandScenarios base cs = .ok out)
    (hnodup : (cs.map DemandScenario.name).Nodup) :
    ∀ s ∈ cs, ∀ p ∈ base.plantIds, ∀ t ∈ base.months,
      out.demand (s.name, p, t) = base.demand p t * s.demandMultiplier := by
  intro s hs p hp t ht
  rw [generateDemandScenarios] at hout
  by_cases h0 : cs.isEmpty
  · rw [if_pos h0] at hout
    exact absurd hout (by simp)
  · rw [if_neg h0] at hout
    by_cases h1 : (strippedNames cs).dedup.length ≠ (strippedNames cs).length
    · rw [if_pos h1] at hout
      exact absurd hout (by simp)
    · rw [if_neg h1] at hout
      cases hbp : buildProbs cs [] with
      | error e =>
          rw [hbp] at hout
          dsimp only at hout
          exact absurd hout (by simp)
      | ok prob =>
          rw [hbp] at hout
          dsimp only at hout
          by_cases h3 : 1 / 1000000 < |dictValuesSum prob - 1|
          · rw [if_pos h3] at hout
            exact absurd hout (by simp)
          · rw [if_neg h3] at hout
            cases hbd : buildScenarioDemand base cs (fun _ => 0) with
            | error e =>
                rw [hbd] at hout
                dsimp only at hout
                exact absurd hout (by simp)
            | ok dem =>
                rw [hbd] at hout
                dsimp only at hout
                have hmult : ∀ s' ∈ cs, 0 ≤ s'.demandMultiplier :=
                  (buildScenarioDemand_isOk_iff base cs _).1 (by rw [hbd]; rfl)
                have hfold := buildScenarioDemand_ok base cs (fun _ => 0) hmult
                rw [hbd] at hfold
                have hdem : dem
                    = cs.foldl (fun f s' => writeScenarioDemand base s' f) (fun _ => 0) := by
                  cases hfold
                  rfl
                have hout' : out.demand = dem := by
                  cases hout
                  rfl
                rw [hout', hdem]
                exact scenariosFold_lookup base cs s p t _ hs hnodup hp ht

/-- Claim C6 (amended): the generator fails exactly when the stripped
non-empty scenario names are not unique, or some probability or demand
multiplier is negative, or the probabilities — keyed by raw scenario name,
later duplicates overwriting earlier entries — do not sum to 1 within
1e-6; on success (for raw-name-distinct scenario lists) the returned
demand at every (scenario, plant, period) equals the scenario's multiplier
times the baseline demand. Scenarios whose names strip to the empty string
escape the uniqueness check. -/
theorem generateDemandScenarios_contract (base : BaseData) (cs : List DemandScenario) :
    (isOkE (generateDemandScenarios base cs) = true
        ↔ (strippedNames cs).Nodup
            ∧ (∀ s ∈ cs, 0 ≤ s.probability)
            ∧ (∀ s ∈ cs, 0 ≤ s.demandMultiplier)
            ∧ |dictValuesSum (scenarioProbDict cs) - 1| ≤ 1 / 1000000)
      ∧ (∀ out, generateDemandScenarios base cs = .ok out →
          (cs.map DemandScenario.name).Nodup →
          ∀ s ∈ cs, ∀ p ∈ base.plantIds, ∀ t ∈ base.months,
            out.demand (s.name, p, t) = base.demand p t * s.demandMultiplier) :=
  ⟨generateDemandScenarios_isOk_iff base cs,
    fun out hout hnodup => generateDemandScenarios_ok_demand base cs out hout hnodup⟩

/-- Concrete base dataset for the C6 theorems: one plant, one month,
baseline demand 10. -/
def baseC6 : BaseData :=
  { plantIds := ["p1"], months := ["m1"], demand := fun _ _ => 10 }

/-- Two scenario specs that share the empty name and each carry
probability 1. -/
def csBad : List DemandScenario := [⟨"", 1, 1⟩, ⟨"", 1, 1⟩]

/-- Claim C6, counterexample: on two scenarios both named the empty string
with probability 1 each, the scenario names are not unique and the listed
probabilities sum to 2 — the claim says generation must fail — yet the
generator succeeds: the uniqueness check only inspects stripped non-empty
names, and the probability dictionary keyed by the raw name collapses the
duplicates to a single entry before the sum-to-1 test. -/
theorem generateDemandScenarios_accepts_bad_input :
    isOkE (generateDemandScenarios baseC6 csBad) = true
      ∧ ¬ (csBad.map DemandScenario.name).Nodup
      ∧ (csBad.map DemandScenario.probability).sum = 2 := by
  refine ⟨?_, by decide, by norm_num [csBad]⟩
  apply (generateDemandScenarios_isOk_iff baseC6 csBad).mpr
  refine ⟨by decide, ?_, ?_, ?_⟩
  · intro s hs
    simp only [csBad] at hs
    fin_cases hs <;> norm_num
  · intro s hs
    simp only [csBad] at hs
    fin_cases hs <;> norm_num
  · norm_num [scenarioProbDict, csBad, dictInsert, dictValuesSum]

/-- The Low scenario spec: probability 1/2, multiplier 9/10. -/
def sLow : DemandScenario := ⟨"Low", 1 / 2, 9 / 10⟩

/-- The High scenario spec: probability 1/2, multiplier 11/10. -/
def sHigh : DemandScenario := ⟨"High", 1 / 2, 11 / 10⟩

/-- A well-formed scenario list. -/
def csGood : List DemandScenario := [sLow, sHigh]

/-- Witness for the amended C6 theorem: on the Low/High scenario pair with
probabilities 1/2 + 1/2 and baseline demand 10, generation succeeds and
the Low-scenario demand is 10 × 9/10 = 9. -/
theorem generateDemandScenarios_contract_witness :
    isOkE (generateDemandScenarios baseC6 csGood) = true
      ∧ (generateDemandScenarios baseC6 csGood).map
          (fun out => out.demand ("Low", "p1", "m1")) = .ok 9 := by
  have h := generateDemandScenarios_contract baseC6 csGood
  have hok : isOkE (generateDemandScenarios baseC6 csGood) = true := by
    apply h.1.mpr
    refine ⟨by decide, ?_, ?_, ?_⟩
    · intro s hs
      simp only [csGood] at hs
      fin_cases hs <;> norm_num [sLow, sHigh]
    · intro s hs
      simp only [csGood] at hs
      fin_cases hs <;> norm_num [sLow, sHigh]
    · have hdict : scenarioProbDict csGood = [("Low", 1 / 2), ("High", 1 / 2)] := rfl
      rw [hdict]
      norm_num [dictValuesSum]
  refine ⟨hok, ?_⟩
  cases hg : generateDemandScenarios baseC6 csGood with
  | error e =>
      rw [hg] at hok
      exact absurd hok (by simp [isOkE])
  | ok out =>
      have hv := h.2 out hg (by decide) sLow
        (List.mem_cons_self _ _) "p1" (List.mem_cons_self _ _)
        "m1" (List.mem_cons_self _ _)
      simp only [Except.map]
      simp only [sLow, baseC6] at hv
      rw [hv]
      norm_num

end ClinkerOpt

namespace ClinkerOpt

/-- Witness for the amended C1 theorem at the concrete counterexample
instance: the decomposition of the repair objective holds there too. -/
theorem feasibleObjective_eq_det_plus_penalty_plus_shipGap_witness :
    feasibleTotalCost detData0 detAssign0
      = totalCostRule detData0 detAssign0
        + demandPenaltyParam * totalDemandSlack detData0 detAssign0
        + sumOver detData0.R (fun r => sumOver detData0.T (fun t =>
            detData0.RouteCost r * (detAssign0.Ship r t - detAssign0.Trips r t))) :=
  feasibleObjective_eq_det_plus_penalty_plus_shipGap detData0 detAssign0

/-- Witness for the amended C3 theorem at a concrete (empty) model: the
shared production family and the scenario-indexed inventory family are
both declared. -/
theorem stochasticModel_structure_witness :
    ("Prod", StochIndexKind.plantPeriod) ∈ stochasticVariableFamilies
      ∧ ("Inv", StochIndexKind.scenarioPlantPeriod) ∈ stochasticVariableFamilies :=
  ⟨(stochasticModel_structure
      ⟨[], [], [], [], fun _ => 0, fun _ => 0, fun _ => 0, fun _ => 0⟩
      ⟨fun _ _ => 0, fun _ _ => 0, fun _ _ => 0, fun _ _ => 0, fun _ _ _ => 0⟩).1,
   (stochasticModel_structure
      ⟨[], [], [], [], fun _ => 0, fun _ => 0, fun _ => 0, fun _ => 0⟩
      ⟨fun _ _ => 0, fun _ _ => 0, fun _ _ => 0, fun _ _ => 0, fun _ _ _ => 0⟩).2.2.2.2.1⟩

/-- Witness for the C5 theorem at concrete solved values: the breakdown
components sum to the reported objective value. -/
theorem parseResults_breakdown_reproduces_objective_witness :
    (parseResultsCostBreakdown detData0 detAssign0).1
        + (parseResultsCostBreakdown detData0 detAssign0).2.1
        + (parseResultsCostBreakdown detData0 detAssign0).2.2
      = parseResultsObjectiveValue detData0 detAssign0 :=
  parseResults_breakdown_reproduces_objective detData0 detAssign0

end ClinkerOpt
